import Mathlib

/-!
Verification of the sandboxed execution core of the Python playground
(`python.py`): the capability gatekeeper (`is_safe_code`), the execution
engine (`safe_execute_code`) and the run-button handler in `main`.

The engine executes user snippets with `exec`; here the snippet language is
shallowly embedded as the statement fragment exercised by the specification
(integer assignment, `print`, bare `raise`, `pass`, `plt.figure(...)`),
interpreted with CPython semantics.  Stream redirection, the import
splitting and resolution, the output composition, the matplotlib figure
registry (`plt.get_fignums` returns the sorted list of open figure numbers,
`plt.figure()` allocates `max + 1`) and the gatekeeper's textual scans are
modelled directly from the source.  String primitives are re-implemented
structurally over `List Char` so that every run is kernel-computable; they
match the CPython string methods (`strip`, `split`, `startswith`, `in`,
`join`) on the inputs that occur.
-/

/-! ### String primitives (CPython string-method counterparts) -/

/-- `s.startswith(pre)`. -/
def strStartsWith (s pre : String) : Bool :=
  pre.toList.isPrefixOf s.toList

/-- `s.endswith(suf)`. -/
def strEndsWith (s suf : String) : Bool :=
  suf.toList.isSuffixOf s.toList

/-- Does `pat` occur in `l` (as a contiguous sublist)? -/
def subOcc (pat : List Char) : List Char → Bool
  | [] => pat.isEmpty
  | c :: rest => pat.isPrefixOf (c :: rest) || subOcc pat rest

/-- `pat in s` for strings (used both by `re.search` on the literal deny
patterns and by the `' as ' in import_stmt` test). -/
def containsSub (s pat : String) : Bool :=
  subOcc pat.toList s.toList

/-- `s.strip()`. -/
def pyStrip (s : String) : String :=
  String.mk (((s.toList.dropWhile Char.isWhitespace).reverse.dropWhile
    Char.isWhitespace).reverse)

/-- Strip trailing whitespace only. -/
def pyStripRight (s : String) : String :=
  String.mk ((s.toList.reverse.dropWhile Char.isWhitespace).reverse)

def splitOnCharAux (sep : Char) : List Char → List Char → List String
  | cur, [] => [String.mk cur.reverse]
  | cur, c :: rest =>
    if c = sep then String.mk cur.reverse :: splitOnCharAux sep [] rest
    else splitOnCharAux sep (c :: cur) rest

/-- `s.split(sep)` for a one-character separator. -/
def splitOnChar (sep : Char) (s : String) : List String :=
  splitOnCharAux sep [] s.toList

/-- `code.split('\n')`. -/
def splitLines : String → List String := splitOnChar '\n'

def splitWsAux : List Char → List Char → List String
  | cur, [] => if cur.isEmpty then [] else [String.mk cur.reverse]
  | cur, c :: rest =>
    if c.isWhitespace then
      if cur.isEmpty then splitWsAux [] rest
      else String.mk cur.reverse :: splitWsAux [] rest
    else splitWsAux (c :: cur) rest

/-- `s.split()`: split on whitespace runs, dropping empty pieces. -/
def splitWs (s : String) : List String :=
  splitWsAux [] s.toList

/-- `sep.join(pieces)`. -/
def joinWith (sep : String) : List String → String
  | [] => ""
  | [x] => x
  | x :: y :: rest => x ++ sep ++ joinWith sep (y :: rest)

/-- A `\w` character of the gatekeeper regexes (ASCII reading). -/
def isWordChar (c : Char) : Bool :=
  c.isAlphanum || c = '_'

/-- Is `l` a Python identifier? -/
def isIdentChars : List Char → Bool
  | [] => false
  | c :: rest => (c.isAlpha || c = '_') && rest.all isWordChar

def isIdentStr (s : String) : Bool := isIdentChars s.toList

def digitsVal (l : List Char) : Nat :=
  l.foldl (fun acc c => acc * 10 + (c.toNat - '0'.toNat)) 0

/-- Parse a decimal numeral. -/
def parseNatLit (l : List Char) : Option Nat :=
  if !l.isEmpty && l.all Char.isDigit then some (digitsVal l) else none

/-- Parse a (possibly negated) integer literal. -/
def parseIntLit (s : String) : Option Int :=
  match s.toList with
  | '-' :: rest => (parseNatLit rest).map (fun n => -(n : Int))
  | l => (parseNatLit l).map (fun n => (n : Int))

def insertNat (n : Nat) : List Nat → List Nat
  | [] => [n]
  | m :: l => if n ≤ m then n :: m :: l else m :: insertNat n l

/-- Ascending insertion sort: `sorted(...)` over figure numbers. -/
def sortNats : List Nat → List Nat
  | [] => []
  | n :: l => insertNat n (sortNats l)

/-! ### Capability gatekeeper (`is_safe_code`, lines 237-266) -/

/-- The deny patterns of `is_safe_code` (the regexes `open\(`, `exec\(`,
`eval\(` contain no metacharacters beyond the escaped parenthesis, so
`re.search` is literal substring search). -/
def denyPatterns : List String := ["open(", "exec(", "eval("]

/-- The inline allow-list that `is_safe_code` checks import roots against
(lines 259-260). -/
def gateAllowList : List String :=
  ["matplotlib", "numpy", "pandas", "seaborn", "math", "re", "random", "time"]

/-- One line matched against `^kw\s+(\w+)`: the keyword at the line start,
at least one whitespace character, then the captured `\w+` run. -/
def matchRootAfter (kw : String) (line : String) : Option String :=
  if strStartsWith line kw then
    let rest := line.toList.drop kw.toList.length
    let ws := rest.takeWhile Char.isWhitespace
    if ws.isEmpty then none
    else
      let w := (rest.drop ws.length).takeWhile isWordChar
      if w.isEmpty then none else some (String.mk w)
  else none

/-- `re.findall(r'^import\s+(\w+)', code, re.MULTILINE)`. -/
def importRoots (code : String) : List String :=
  (splitLines code).filterMap (matchRootAfter "import")

/-- `re.findall(r'^from\s+(\w+)', code, re.MULTILINE)`. -/
def fromRoots (code : String) : List String :=
  (splitLines code).filterMap (matchRootAfter "from")

def dedupFirstGo : List String → List String → List String
  | _, [] => []
  | seen, a :: l =>
    if a ∈ seen then dedupFirstGo seen l
    else a :: dedupFirstGo (a :: seen) l

/-- Deduplication keeping first occurrences.  The source builds
`set(imports + from_imports)`; CPython set iteration order is unspecified,
so the model fixes it as insertion order of the concatenated list. -/
def dedupFirst (l : List String) : List String := dedupFirstGo [] l

/-- `disallowed_imports` of `is_safe_code` (lines 257-261). -/
def disallowedImports (code : String) : List String :=
  (dedupFirst (importRoots code ++ fromRoots code)).filter
    (fun imp => !decide (imp ∈ gateAllowList))

/-- `is_safe_code` (lines 237-266).  The source loops over the deny patterns
returning the same message at the first match; an `any` over the pattern
list is the same function. -/
def is_safe_code (code : String) : Bool × String :=
  if denyPatterns.any (fun pat => containsSub code pat) then
    (false, "Unsafe code pattern detected")
  else if !(disallowedImports code).isEmpty then
    (false, "Disallowed imports detected: " ++ joinWith ", " (disallowedImports code))
  else
    (true, "Code appears safe")

/-! ### Execution engine state -/

/-- Where one of `sys.stdin` / `sys.stdout` / `sys.stderr` currently
points: an original process stream, or one of the three `StringIO`
captures created by the current `safe_execute_code` call. -/
inductive StreamTarget where
  | sys (fd : Nat)
  | capIn
  | capOut
  | capErr
deriving DecidableEq

/-- A `StringIO` buffer. -/
structure Buffer where
  contents : String
  isOpen : Bool
deriving DecidableEq

/-- The three capture buffers of one `safe_execute_code` call. -/
structure Capture where
  inB : Buffer
  outB : Buffer
  errB : Buffer
deriving DecidableEq

/-- Process-global interpreter state the engine touches: the three `sys`
stream bindings and the matplotlib figure registry.  `figs` lists the open
figure numbers in creation order (matplotlib's `Gcf` registry). -/
structure ProcState where
  stdin : StreamTarget
  stdout : StreamTarget
  stderr : StreamTarget
  figs : List Nat
deriving DecidableEq

/-- A raised Python exception: type name and message. -/
structure PyError where
  kind : String
  msg : String
deriving DecidableEq

/-- Values in the execution namespace. -/
inductive PyValue where
  | int (n : Int)
  | module (name : String)
  | attr (modName member : String)
deriving DecidableEq

/-- The `exec_globals` dictionary: the `__builtins__` entry (a dict holding
exactly the listed function names) plus the ordinary bindings. -/
structure ExecGlobals where
  builtinNames : List String
  vars : List (String × PyValue)
deriving DecidableEq

/-- The runtime import environment: which modules `importlib` can resolve,
and which members `getattr` finds on them. -/
structure Env where
  available : String → Bool
  hasMember : String → String → Bool

/-- Result triple of `safe_execute_code`: success flag, output text,
captured figures (by figure number). -/
structure ExecOutcome where
  success : Bool
  output : String
  figures : List Nat
deriving DecidableEq

/-! ### Namespace operations -/

def lookupVar (g : ExecGlobals) (x : String) : Option PyValue :=
  (g.vars.find? (fun p => p.1 == x)).map (fun p => p.2)

def setVar (g : ExecGlobals) (x : String) (v : PyValue) : ExecGlobals :=
  if g.vars.any (fun p => p.1 == x) then
    { g with vars := g.vars.map (fun p => if p.1 == x then (x, v) else p) }
  else
    { g with vars := g.vars ++ [(x, v)] }

/-- Is `x` resolvable during execution (a global or a provided builtin)? -/
def resolvable (g : ExecGlobals) (x : String) : Bool :=
  (lookupVar g x).isSome || g.builtinNames.contains x

/-- The `__builtins__` dict of `exec_globals` (lines 135-150), in source
order. -/
def execBuiltins : List String :=
  ["print", "len", "range", "int", "float", "str", "list", "dict", "set",
   "tuple", "sum", "max", "min", "sorted"]

/-- The fresh `exec_globals` built at the start of every call
(lines 134-155): the restricted `__builtins__` plus the pre-injected
`plt`, `sns`, `np`, `pd` modules. -/
def initGlobals : ExecGlobals :=
  { builtinNames := execBuiltins
    vars := [("plt", PyValue.module "matplotlib.pyplot"),
             ("sns", PyValue.module "seaborn"),
             ("np", PyValue.module "numpy"),
             ("pd", PyValue.module "pandas")] }

/-! ### Allow-list of the engine (lines 15-26, 185, 198) -/

def ALLOWED_MODULES : List String :=
  ["math", "re", "random", "time", "datetime", "collections",
   "itertools", "functools", "statistics",
   "typing", "operator", "json", "csv",
   "numpy", "pandas", "scipy", "sklearn",
   "matplotlib", "matplotlib.pyplot", "seaborn", "plotly",
   "torch", "tensorflow", "keras",
   "sympy", "networkx", "pillow",
   "requests", "beautifulsoup4", "nltk",
   "pytz", "emoji", "pytest"]

/-- `any(module_name.startswith(allowed) for allowed in ALLOWED_MODULES)`
(lines 185 and 198). -/
def moduleAllowed (module_name : String) : Bool :=
  ALLOWED_MODULES.any (fun allowed => strStartsWith module_name allowed)

/-- Modelled from the spec's words, for comparison with `moduleAllowed`:
a requested name is covered when it equals a declared entry or is a dotted
sub-path of one. -/
def dottedCovered (name : String) (declared : List String) : Bool :=
  declared.any (fun a => name == a || strStartsWith name (a ++ "."))

/-! ### Buffer writes -/

def appendBuf (b : Buffer) (txt : String) : Buffer :=
  if b.isOpen then { b with contents := b.contents ++ txt } else b

/-- A write through the current `sys.stdout` binding. -/
def writeOut (s : ProcState) (cap : Capture) (txt : String) : Capture :=
  match s.stdout with
  | .capIn => { cap with inB := appendBuf cap.inB txt }
  | .capOut => { cap with outB := appendBuf cap.outB txt }
  | .capErr => { cap with errB := appendBuf cap.errB txt }
  | .sys _ => cap

/-! ### Import handling (lines 157-205) -/

/-- Is a line routed to the import partition (line 165:
`stripped_line.startswith('import ') or stripped_line.startswith('from ')`)? -/
def isImportLine (line : String) : Bool :=
  strStartsWith (pyStrip line) "import " || strStartsWith (pyStrip line) "from "

def importLines (code : String) : List String :=
  (splitLines code).filter isImportLine

def remainderLines (code : String) : List String :=
  (splitLines code).filter (fun line => !isImportLine line)

/-- `'\n'.join(code_without_imports)` (line 208). -/
def remainderSrc (code : String) : String :=
  joinWith "\n" (remainderLines code)

/-- The body of one iteration of the import loop (lines 172-201), before
the `except ImportError` handler.  Raises `IndexError` on malformed
statements (the bare list indexing of the source), `ImportError` when the
module cannot be resolved, `AttributeError` when `getattr` fails; a
disallowed module is silently skipped; a raw line passing neither
`startswith` test falls through untouched. -/
def importStmtBody (env : Env) (g : ExecGlobals) (stmt : String) :
    Except PyError ExecGlobals :=
  if strStartsWith stmt "import " then
    match (splitWs stmt).get? 1 with
    | none => .error ⟨"IndexError", "list index out of range"⟩
    | some module_name =>
      let aliasName :=
        if containsSub stmt " as " then (splitWs stmt).getLastD "" else module_name
      if moduleAllowed module_name then
        if env.available module_name then
          .ok (setVar g aliasName (PyValue.module module_name))
        else
          .error ⟨"ImportError", "No module named '" ++ module_name ++ "'"⟩
      else .ok g
  else if strStartsWith stmt "from " then
    let parts := splitWs stmt
    match parts.get? 1 with
    | none => .error ⟨"IndexError", "list index out of range"⟩
    | some module_name =>
      match parts.get? 3 with
      | none => .error ⟨"IndexError", "list index out of range"⟩
      | some imported_name =>
        let aliasName :=
          if parts.length > 4 && parts.get? 4 == some "as" then parts.getLastD ""
          else imported_name
        if moduleAllowed module_name then
          if env.available module_name then
            if env.hasMember module_name imported_name then
              .ok (setVar g aliasName (PyValue.attr module_name imported_name))
            else
              .error ⟨"AttributeError",
                "module '" ++ module_name ++ "' has no attribute '" ++
                  imported_name ++ "'"⟩
          else
            .error ⟨"ImportError", "No module named '" ++ module_name ++ "'"⟩
        else .ok g
  else .ok g

/-- One import statement under its `try/except ImportError` (lines 171-205):
an `ImportError` is downgraded to a warning printed through the redirected
stdout, any other exception propagates. -/
def runImport (env : Env) (s : ProcState) (cap : Capture) (g : ExecGlobals)
    (stmt : String) : ProcState × Capture × Except PyError ExecGlobals :=
  match importStmtBody env g stmt with
  | .ok g' => (s, cap, .ok g')
  | .error e =>
    if e.kind == "ImportError" then
      (s, writeOut s cap ("Import warning: " ++ e.msg ++ "\n"), .ok g)
    else
      (s, cap, .error e)

/-- The import loop (lines 171-205). -/
def importPhase (env : Env) :
    List String → ProcState → Capture → ExecGlobals →
      ProcState × Capture × Except PyError ExecGlobals
  | [], s, cap, g => (s, cap, .ok g)
  | stmt :: rest, s, cap, g =>
    let r := runImport env s cap g stmt
    match r.2.2 with
    | .error e => (r.1, r.2.1, .error e)
    | .ok g' => importPhase env rest r.1 r.2.1 g'

/-! ### The embedded snippet language executed by `exec` (line 208) -/

inductive Stmt where
  | pass
  | assign (x : String) (n : Int)
  | printVar (x : String)
  | printLit (n : Int)
  | printEmpty
  | figureNew (num : Option Nat)
  | raiseBare
deriving DecidableEq

def innerArg (p : String) (k : Nat) : String :=
  String.mk ((p.toList.drop k).dropLast)

/-- Parse one (already left-flush, right-stripped, nonblank) line. -/
def parseStmt (p : String) : Except PyError Stmt :=
  if p = "pass" then .ok .pass
  else if p = "raise" then .ok .raiseBare
  else if strStartsWith p "print(" && strEndsWith p ")" then
    let inner := innerArg p 6
    if inner = "" then .ok .printEmpty
    else if isIdentStr inner then .ok (.printVar inner)
    else
      match parseIntLit inner with
      | some n => .ok (.printLit n)
      | none => .error ⟨"SyntaxError", "invalid syntax"⟩
  else if p = "plt.figure()" then .ok (.figureNew none)
  else if strStartsWith p "plt.figure(" && strEndsWith p ")" then
    match parseNatLit ((p.toList.drop 11).dropLast) with
    | some n => .ok (.figureNew (some n))
    | none => .error ⟨"SyntaxError", "invalid syntax"⟩
  else
    match splitOnChar '=' p with
    | [lhs, rhs] =>
      let x := pyStrip lhs
      if isIdentStr x then
        match parseIntLit (pyStrip rhs) with
        | some n => .ok (.assign x n)
        | none => .error ⟨"SyntaxError", "invalid syntax"⟩
      else .error ⟨"SyntaxError", "invalid syntax"⟩
    | _ => .error ⟨"SyntaxError", "invalid syntax"⟩

/-- Parse one raw line: blank lines vanish, an indented statement is an
`IndentationError` at top level. -/
def parseLine (line : String) : Except PyError (Option Stmt) :=
  if pyStrip line = "" then .ok none
  else
    match line.toList with
    | [] => .ok none
    | c :: _ =>
      if c.isWhitespace then .error ⟨"IndentationError", "unexpected indent"⟩
      else (parseStmt (pyStripRight line)).map some

/-- `compile` the whole remainder first: a syntax error anywhere prevents
execution of every statement (CPython reports the first one). -/
def parseProgram : List String → Except PyError (List Stmt)
  | [] => .ok []
  | l :: rest =>
    match parseLine l with
    | .error e => .error e
    | .ok none => parseProgram rest
    | .ok (some st) =>
      match parseProgram rest with
      | .error e => .error e
      | .ok sts => .ok (st :: sts)

def pyRepr : PyValue → String
  | .int n => toString n
  | .module m => "<module '" ++ m ++ "'>"
  | .attr m a => "<attribute '" ++ a ++ "' of module '" ++ m ++ "'>"

/-- `plt.figure()` with no number: `max(open numbers) + 1`, or `1` when the
registry is empty (matplotlib's allocation). -/
def newFigNum (figs : List Nat) : Nat :=
  (figs.foldl Nat.max 0) + 1

def doPrint (s : ProcState) (cap : Capture) (txt : String) : Capture :=
  writeOut s cap (txt ++ "\n")

/-- Execute one statement (CPython semantics on the embedded fragment). -/
def runStmt (_env : Env) (st : Stmt) (s : ProcState) (cap : Capture)
    (g : ExecGlobals) : ProcState × Capture × Except PyError ExecGlobals :=
  match st with
  | .pass => (s, cap, .ok g)
  | .assign x n => (s, cap, .ok (setVar g x (PyValue.int n)))
  | .printVar x =>
    if resolvable g "print" then
      match lookupVar g x with
      | some v => (s, doPrint s cap (pyRepr v), .ok g)
      | none =>
        if g.builtinNames.contains x then
          (s, doPrint s cap ("<built-in function " ++ x ++ ">"), .ok g)
        else
          (s, cap, .error ⟨"NameError", "name '" ++ x ++ "' is not defined"⟩)
    else (s, cap, .error ⟨"NameError", "name 'print' is not defined"⟩)
  | .printLit n =>
    if resolvable g "print" then (s, doPrint s cap (toString n), .ok g)
    else (s, cap, .error ⟨"NameError", "name 'print' is not defined"⟩)
  | .printEmpty =>
    if resolvable g "print" then (s, doPrint s cap "", .ok g)
    else (s, cap, .error ⟨"NameError", "name 'print' is not defined"⟩)
  | .figureNew numOpt =>
    match lookupVar g "plt" with
    | some (.module _) =>
      let num := match numOpt with | some n => n | none => newFigNum s.figs
      let s' := if s.figs.contains num then s else { s with figs := s.figs ++ [num] }
      (s', cap, .ok g)
    | some _ => (s, cap, .error ⟨"AttributeError", "object has no attribute 'figure'"⟩)
    | none => (s, cap, .error ⟨"NameError", "name 'plt' is not defined"⟩)
  | .raiseBare => (s, cap, .error ⟨"RuntimeError", "No active exception to re-raise"⟩)

def runStmts (env : Env) :
    List Stmt → ProcState → Capture → ExecGlobals →
      ProcState × Capture × Except PyError ExecGlobals
  | [], s, cap, g => (s, cap, .ok g)
  | st :: rest, s, cap, g =>
    let r := runStmt env st s cap g
    match r.2.2 with
    | .error e => (r.1, r.2.1, .error e)
    | .ok g' => runStmts env rest r.1 r.2.1 g'

/-- `exec('\n'.join(code_without_imports), exec_globals)` (line 208). -/
def execPython (env : Env) (s : ProcState) (cap : Capture) (g : ExecGlobals)
    (src : String) : ProcState × Capture × Except PyError ExecGlobals :=
  match parseProgram (splitLines src) with
  | .error e => (s, cap, .error e)
  | .ok stmts => runStmts env stmts s cap g

/-! ### `safe_execute_code` (lines 112-234) -/

def noOutputMsg : String := "Code executed successfully with no output."

/-- `traceback.format_exc()` of the caught exception; the frame lines of
the hosting process are elided, the final `type: message` line is kept. -/
def formatTraceback (e : PyError) : String :=
  "Traceback (most recent call last):\n" ++ e.kind ++ ": " ++ e.msg

/-- Lines 214-219: concatenate the captured stdout then the captured
stderr, strip, and substitute the fixed message when empty. -/
def composeOutput (cap : Capture) : String :=
  let output := cap.outB.contents ++ cap.errB.contents
  if pyStrip output = "" then noOutputMsg else pyStrip output

/-- Lines 121-127: redirect the three `sys` streams at the captures. -/
def redirected (s : ProcState) : ProcState :=
  { s with stdin := .capIn, stdout := .capOut, stderr := .capErr }

def freshCapture : Capture :=
  ⟨⟨"", true⟩, ⟨"", true⟩, ⟨"", true⟩⟩

/-- `buffer.close()`. -/
def closeBuf (b : Buffer) : Buffer :=
  { b with isOpen := false }

/-- The `try` block of `safe_execute_code` (lines 132-219): build the fresh
`exec_globals`, run the import loop, execute the remainder, then collect
the figures (`plt.get_fignums()` is the sorted open-figure numbers) and the
composed output. -/
def tryBody (env : Env) (s : ProcState) (cap : Capture) (code : String) :
    ProcState × Capture × Except PyError (String × List Nat) :=
  let ir := importPhase env (importLines code) s cap initGlobals
  match ir.2.2 with
  | .error e => (ir.1, ir.2.1, .error e)
  | .ok g =>
    let er := execPython env ir.1 ir.2.1 g (remainderSrc code)
    match er.2.2 with
    | .error e => (er.1, er.2.1, .error e)
    | .ok _ => (er.1, er.2.1, .ok (composeOutput er.2.1, sortNats er.1.figs))

/-- `safe_execute_code` (lines 112-234).  Besides the result pair the model
returns the final state of the three local capture buffers, so the
resource discipline of the `finally` block is visible in the type. -/
def safe_execute_code (env : Env) (s : ProcState) (code : String) :
    ProcState × ExecOutcome × Capture :=
  let old_stdin := s.stdin
  let old_stdout := s.stdout
  let old_stderr := s.stderr
  let r := tryBody env (redirected s) freshCapture code
  let outcome : ExecOutcome :=
    match r.2.2 with
    | .ok p => ⟨true, p.1, p.2⟩
    | .error e => ⟨false, formatTraceback e, []⟩
  ({ r.1 with stdin := old_stdin, stdout := old_stdout, stderr := old_stderr },
   outcome,
   ⟨closeBuf r.2.1.inB, closeBuf r.2.1.outB, closeBuf r.2.1.errB⟩)

/-! ### The run-button handler of `main` (lines 395-423) -/

/-- What `main` renders for one submission. -/
inductive Displayed where
  | rejected (msg : String)
  | executed (r : ExecOutcome)
deriving DecidableEq

/-- Lines 395-423: gatekeeper first; only on approval is
`safe_execute_code` invoked; each displayed figure is then closed
(`plt.close(fig)`), removing it from the registry. -/
def runSubmission (env : Env) (s : ProcState) (code : String) :
    ProcState × Displayed :=
  let verdict := is_safe_code code
  if verdict.1 then
    let r := safe_execute_code env s code
    let s2 := { r.1 with figs := r.1.figs.filter (fun n => !(r.2.1.figures.contains n)) }
    (s2, .executed r.2.1)
  else
    (s, .rejected verdict.2)

/-! ### Fixtures and derived observation points -/

/-- A runtime environment with no resolvable module. -/
def env0 : Env := ⟨fun _ => false, fun _ _ => false⟩

/-- A runtime environment in which only `math` resolves (`scipy` is
declared allowed but unavailable). -/
def envScipy : Env := ⟨fun m => m == "math", fun _ _ => false⟩

/-- The initial process state: real streams, empty figure registry. -/
def s0 : ProcState := ⟨.sys 0, .sys 1, .sys 2, []⟩

/-- Final capture-buffer state of a run (the `StringIO` triple as the
`finally` block sees it, before closing). -/
def capAfterBody (env : Env) (s : ProcState) (code : String) : Capture :=
  (tryBody env (redirected s) freshCapture code).2.1

/-- The figure registry at the end of the `try` block: `s.figs` extended,
in creation order, by the figures the run created. -/
def figsAfterBody (env : Env) (s : ProcState) (code : String) : List Nat :=
  (tryBody env (redirected s) freshCapture code).1.figs

/-- Requested import roots in order of first appearance in the source
text, line by line (the spec's ordering for the rejection reason). -/
def requestedRootsInOrder (code : String) : List String :=
  (splitLines code).filterMap (fun line =>
    match matchRootAfter "import" line with
    | some r => some r
    | none => matchRootAfter "from" line)

/-- Modelled from the spec's words, for comparison with `is_safe_code`:
the rejection reason listing every disallowed name deduplicated in order
of first appearance in the source text. -/
def specReason (code : String) : String :=
  "Disallowed imports detected: " ++ joinWith ", "
    ((dedupFirst (requestedRootsInOrder code)).filter
      (fun imp => !decide (imp ∈ gateAllowList)))

/-! ### Helper lemmas -/

theorem mem_dedupFirstGo (x : String) (l : List String) :
    ∀ seen, x ∈ dedupFirstGo seen l ↔ (x ∈ l ∧ x ∉ seen) := by
  induction l with
  | nil => intro seen; simp [dedupFirstGo]
  | cons a l ih =>
    intro seen
    simp only [dedupFirstGo]
    by_cases h : a ∈ seen
    · rw [if_pos h, ih seen]
      simp only [List.mem_cons]
      constructor
      · rintro ⟨hx, hs⟩; exact ⟨Or.inr hx, hs⟩
      · rintro ⟨hx | hx, hs⟩
        · exact absurd (hx ▸ h) hs
        · exact ⟨hx, hs⟩
    · rw [if_neg h]
      simp only [List.mem_cons, ih (a :: seen), List.mem_cons]
      constructor
      · rintro (rfl | ⟨hl, hns⟩)
        · exact ⟨Or.inl rfl, h⟩
        · exact ⟨Or.inr hl, fun hs => hns (Or.inr hs)⟩
      · rintro ⟨rfl | hl, hs⟩
        · exact Or.inl rfl
        · by_cases hxa : x = a
          · exact Or.inl hxa
          · exact Or.inr ⟨hl, fun hc => hc.elim hxa hs⟩

theorem nodup_dedupFirstGo (l : List String) :
    ∀ seen, (dedupFirstGo seen l).Nodup := by
  induction l with
  | nil => intro seen; simp [dedupFirstGo]
  | cons a l ih =>
    intro seen
    simp only [dedupFirstGo]
    by_cases h : a ∈ seen
    · rw [if_pos h]; exact ih seen
    · rw [if_neg h]
      refine List.nodup_cons.mpr ⟨?_, ih (a :: seen)⟩
      intro hmem
      exact ((mem_dedupFirstGo a l (a :: seen)).mp hmem).2 (List.mem_cons_self a seen)

/-- The result component of `safe_execute_code` is decided by the
`Except` value the `try` block produced. -/
theorem safe_execute_code_outcome (env : Env) (s : ProcState) (code : String) :
    (safe_execute_code env s code).2.1 =
      (match (tryBody env (redirected s) freshCapture code).2.2 with
       | .ok p => (⟨true, p.1, p.2⟩ : ExecOutcome)
       | .error e => ⟨false, formatTraceback e, []⟩) := rfl

/-- On the success path the payload carries exactly the composed output of
the final capture state and the sorted figure registry. -/
theorem tryBody_ok_payload (env : Env) (s : ProcState) (cap : Capture)
    (code : String) (Ts : ProcState) (Tc : Capture) (p : String × List Nat)
    (hT : tryBody env s cap code = (Ts, Tc, Except.ok p)) :
    p = (composeOutput Tc, sortNats Ts.figs) := by
  simp only [tryBody] at hT
  split at hT
  · simp at hT
  · split at hT
    · simp at hT
    · simp only [Prod.mk.injEq, Except.ok.injEq] at hT
      obtain ⟨h1, h2, h3⟩ := hT
      subst h1; subst h2; subst h3
      rfl

/-! ### Claim theorems -/

/-- C1 (counterexample): after a run of `x = 1` succeeds, the second run
`print(x)` does not succeed with output `"1"` — it fails with a
`NameError`, because `exec_globals` is rebuilt from scratch on every call
and no binding is ever stored into any session state. -/
theorem bindingLostAcrossRuns :
    (runSubmission env0 s0 "x = 1").2 =
      Displayed.executed ⟨true, noOutputMsg, []⟩ ∧
    (runSubmission env0 (runSubmission env0 s0 "x = 1").1 "print(x)").2 ≠
      Displayed.executed ⟨true, "1", []⟩ :=
  ⟨rfl, by decide⟩

/-- C1 (amended): there is no namespace persistence.  For every session
state and runtime environment, `x = 1` runs successfully (producing the
no-output message), and the subsequent `print(x)` run fails with a
`NameError` trace, since every run starts from the fresh initial globals. -/
theorem freshNamespaceEachRun (env : Env) (s : ProcState) :
    (runSubmission env s "x = 1").2 =
      Displayed.executed ⟨true, noOutputMsg, sortNats s.figs⟩ ∧
    (runSubmission env (runSubmission env s "x = 1").1 "print(x)").2 =
      Displayed.executed ⟨false,
        formatTraceback ⟨"NameError", "name 'x' is not defined"⟩, []⟩ :=
  ⟨rfl, rfl⟩

/-- C2 (counterexample): the rollback scenario of the claim is not
observable in the code.  Running `y = 5` succeeds, a following run that
sets `y = 10` and then raises fails with no artifacts — but a third run
`print(y)` does not see `y = 5` (it fails with a `NameError` instead of
printing `5`), because there is no persistent namespace at all: the failed
run's bindings are discarded, and so are the successful run's. -/
theorem rollbackScenarioUnobservable :
    (runSubmission env0 s0 "y = 5").2 =
      Displayed.executed ⟨true, noOutputMsg, []⟩ ∧
    (runSubmission env0 s0 "y = 10\nprint(z)").2 =
      Displayed.executed ⟨false,
        formatTraceback ⟨"NameError", "name 'z' is not defined"⟩, []⟩ ∧
    (runSubmission env0 s0 "print(y)").2 ≠
      Displayed.executed ⟨true, "5", []⟩ :=
  ⟨rfl, rfl, by decide⟩

/-- C2 (amended): when the import phase completes and executing the
non-import remainder raises, the run returns `success = false`, the raw
traceback as output, and an empty artifact list; no binding made by the
run survives it (vacuously — no binding survives any run, see C1). -/
theorem remainderExceptionFailsWithNoArtifacts (env : Env) (s : ProcState)
    (code : String) (g : ExecGlobals) (err : PyError)
    (h1 : (importPhase env (importLines code) (redirected s) freshCapture
            initGlobals).2.2 = Except.ok g)
    (h2 : (execPython env
            (importPhase env (importLines code) (redirected s) freshCapture
              initGlobals).1
            (importPhase env (importLines code) (redirected s) freshCapture
              initGlobals).2.1
            g (remainderSrc code)).2.2 = Except.error err) :
    (safe_execute_code env s code).2.1 = ⟨false, formatTraceback err, []⟩ := by
  rw [safe_execute_code_outcome]
  have hbody : (tryBody env (redirected s) freshCapture code).2.2 =
      Except.error err := by
    simp only [tryBody]
    split
    · next e heq => rw [h1] at heq; cases heq
    · next g' heq =>
      rw [h1] at heq
      cases heq
      split
      · next e heq2 => rw [h2] at heq2; cases heq2; rfl
      · next v heq2 => rw [h2] at heq2; cases heq2
  rw [hbody]

/-- C2 (witness). -/
theorem remainderExceptionFailsWithNoArtifactsWitness :
    (safe_execute_code env0 s0 "y = 10\nprint(z)").2.1 =
      ⟨false, formatTraceback ⟨"NameError", "name 'z' is not defined"⟩, []⟩ :=
  remainderExceptionFailsWithNoArtifacts env0 s0 "y = 10\nprint(z)"
    initGlobals ⟨"NameError", "name 'z' is not defined"⟩ rfl rfl

/-- C3: on every input — normal completion and every exceptional path
alike — `safe_execute_code` restores the original `sys.stdin`,
`sys.stdout` and `sys.stderr` bindings and closes all three capture
buffers before returning (the `finally` block of lines 226-234). -/
theorem streamsRestoredBuffersClosedAllPaths (env : Env) (s : ProcState)
    (code : String) :
    (safe_execute_code env s code).1.stdin = s.stdin ∧
    (safe_execute_code env s code).1.stdout = s.stdout ∧
    (safe_execute_code env s code).1.stderr = s.stderr ∧
    (safe_execute_code env s code).2.2.inB.isOpen = false ∧
    (safe_execute_code env s code).2.2.outB.isOpen = false ∧
    (safe_execute_code env s code).2.2.errB.isOpen = false :=
  ⟨rfl, rfl, rfl, rfl, rfl, rfl⟩

/-- C4 (counterexample): the engine's allow check accepts `"numpyX"`
(`"numpyX".startswith("numpy")` is true), although `"numpyX"` neither
equals nor is a dotted sub-path of any declared entry — the claim's
dotted-prefix reading is false for the code's plain `startswith` test. -/
theorem engineAllowCheckAcceptsNonDottedExtension :
    moduleAllowed "numpyX" = true ∧
    dottedCovered "numpyX" ALLOWED_MODULES = false := by
  decide

/-- C4 (amended): the engine's capability matching is plain leading-substring
matching: a requested name is allowed iff some declared entry is a leading
substring of it.  `"numpy.random"` is allowed, `"subprocess"` is rejected,
but `"numpyX"` — extending an entry without a dot separator — is allowed
too. -/
theorem engineAllowCheckIsPlainLeadingSubstring :
    (∀ name : String, moduleAllowed name = true ↔
      ∃ a ∈ ALLOWED_MODULES, strStartsWith name a = true) ∧
    moduleAllowed "numpy.random" = true ∧
    moduleAllowed "subprocess" = false ∧
    moduleAllowed "numpyX" = true := by
  refine ⟨fun name => ?_, by decide, by decide, by decide⟩
  unfold moduleAllowed
  exact List.any_eq_true

/-- C4 (witness). -/
theorem engineAllowCheckWitness : moduleAllowed "matplotlib.pyplot" = true :=
  (engineAllowCheckIsPlainLeadingSubstring.1 "matplotlib.pyplot").mpr
    ⟨"matplotlib", by decide, by decide⟩

/-- C5 (counterexample): for the source text `"from ccc import t\nimport bbb"`
the first-appearance order of the disallowed names is `ccc` then `bbb`,
but the reason lists `bbb` then `ccc`: the source groups all `^import`
matches before all `^from` matches before deduplicating (and the Python
`set` it then iterates has no specified order at all). -/
theorem disallowedReasonOrderNotFirstAppearance :
    is_safe_code "from ccc import t\nimport bbb" =
      (false, "Disallowed imports detected: bbb, ccc") ∧
    specReason "from ccc import t\nimport bbb" =
      "Disallowed imports detected: ccc, bbb" ∧
    ("Disallowed imports detected: bbb, ccc" : String) ≠
      "Disallowed imports detected: ccc, bbb" := by
  refine ⟨rfl, rfl, by decide⟩

/-- C5 (amended): when no deny pattern matches and at least one requested
capability is disallowed, the gatekeeper rejects with a reason listing
every disallowed requested root exactly once (deduplicated) — but in the
model's grouped order (all `import` roots, then all `from` roots), not in
order of first appearance; in CPython the order is unspecified set
iteration order. -/
theorem disallowedReasonDedupedGroupedOrder (code : String)
    (h1 : containsSub code "open(" = false)
    (h2 : containsSub code "exec(" = false)
    (h3 : containsSub code "eval(" = false)
    (h4 : disallowedImports code ≠ []) :
    is_safe_code code =
      (false, "Disallowed imports detected: " ++
        joinWith ", " (disallowedImports code)) ∧
    (disallowedImports code).Nodup ∧
    (∀ n : String, n ∈ disallowedImports code ↔
      (n ∈ importRoots code ++ fromRoots code ∧ n ∉ gateAllowList)) := by
  refine ⟨?_, ?_, ?_⟩
  · have hany : denyPatterns.any (fun pat => containsSub code pat) = false := by
      simp [denyPatterns, h1, h2, h3]
    have hne : (disallowedImports code).isEmpty = false := by
      cases hd : disallowedImports code with
      | nil => exact absurd hd h4
      | cons a l => rfl
    unfold is_safe_code
    rw [hany, hne]
    rfl
  · exact List.Nodup.filter _ (nodup_dedupFirstGo _ [])
  · intro n
    simp only [disallowedImports, dedupFirst, List.mem_filter,
      mem_dedupFirstGo, List.not_mem_nil, not_false_iff, and_true,
      Bool.not_eq_true', decide_eq_false_iff_not]

/-- C5 (witness). -/
theorem disallowedReasonDedupedGroupedOrderWitness :
    is_safe_code "import bbb\nimport bbb\nfrom ccc import x" =
      (false, "Disallowed imports detected: bbb, ccc") :=
  (disallowedReasonDedupedGroupedOrder "import bbb\nimport bbb\nfrom ccc import x"
    (by decide) (by decide) (by decide) (by decide)).1

/-- C6 (counterexample): the rejection reason for a deny-pattern match is
the fixed string `"Unsafe code pattern detected"`; it does not name the
offending pattern (here `open(`). -/
theorem denyReasonGeneric :
    is_safe_code "open(f)" = (false, "Unsafe code pattern detected") ∧
    containsSub "Unsafe code pattern detected" "open(" = false := by
  decide

/-- C6 (amended): any source text containing a deny pattern (`open(`,
`exec(` or `eval(`) is rejected pre-execution with the fixed generic
reason, and the execution engine is never invoked on it: the run handler
returns the rejection with the session state untouched. -/
theorem denyPatternRejectedWithoutExecution (env : Env) (s : ProcState)
    (code : String)
    (h : containsSub code "open(" = true ∨ containsSub code "exec(" = true ∨
         containsSub code "eval(" = true) :
    is_safe_code code = (false, "Unsafe code pattern detected") ∧
    runSubmission env s code = (s, Displayed.rejected "Unsafe code pattern detected") := by
  have hany : denyPatterns.any (fun pat => containsSub code pat) = true := by
    rcases h with h | h | h <;> simp [denyPatterns, h]
  have hsafe : is_safe_code code = (false, "Unsafe code pattern detected") := by
    unfold is_safe_code
    rw [hany]
    rfl
  refine ⟨hsafe, ?_⟩
  unfold runSubmission
  rw [hsafe]
  rfl

/-- C6 (witness). -/
theorem denyPatternRejectedWithoutExecutionWitness :
    is_safe_code "open(f)" = (false, "Unsafe code pattern detected") ∧
    runSubmission env0 s0 "open(f)" =
      (s0, Displayed.rejected "Unsafe code pattern detected") :=
  denyPatternRejectedWithoutExecution env0 s0 "open(f)" (Or.inl (by decide))

/-- C7: on every successful run, `output_text` is the stripped
concatenation of the whole captured stdout followed by the whole captured
stderr, and when that stripped concatenation is empty it is the fixed
no-output message instead — never the empty string. -/
theorem successOutputTrimmedConcatOrDefault (env : Env) (s : ProcState)
    (code : String)
    (hs : (safe_execute_code env s code).2.1.success = true) :
    (safe_execute_code env s code).2.1.output =
      (if pyStrip ((capAfterBody env s code).outB.contents ++
            (capAfterBody env s code).errB.contents) = ""
       then noOutputMsg
       else pyStrip ((capAfterBody env s code).outB.contents ++
            (capAfterBody env s code).errB.contents)) ∧
    (safe_execute_code env s code).2.1.output ≠ "" := by
  have hout := safe_execute_code_outcome env s code
  rcases hT : tryBody env (redirected s) freshCapture code with ⟨Ts, Tc, Tb⟩
  rw [hT] at hout
  unfold capAfterBody
  rw [hT]
  cases Tb with
  | error e => rw [hout] at hs; cases hs
  | ok p =>
    have hp := tryBody_ok_payload env (redirected s) freshCapture code Ts Tc p hT
    rw [hout, hp]
    by_cases hc : pyStrip (Tc.outB.contents ++ Tc.errB.contents) = ""
    · rw [if_pos hc]
      constructor
      · show composeOutput Tc = noOutputMsg
        simp [composeOutput, hc]
      · show ¬ composeOutput Tc = ""
        intro habs
        have : noOutputMsg = "" := by simpa [composeOutput, hc] using habs
        exact absurd this (by decide)
    · rw [if_neg hc]
      constructor
      · show composeOutput Tc = pyStrip (Tc.outB.contents ++ Tc.errB.contents)
        simp [composeOutput, hc]
      · show ¬ composeOutput Tc = ""
        intro habs
        simp [composeOutput, hc] at habs

/-- C7 (witness). -/
theorem successOutputTrimmedConcatOrDefaultWitness :
    (safe_execute_code env0 s0 "pass").2.1.output ≠ "" :=
  (successOutputTrimmedConcatOrDefault env0 s0 "pass" rfl).2

/-- C8: a resolution failure of an approved import (an `ImportError`) is
non-fatal.  In general, the import loop on such a statement just appends
the warning line to the redirected stdout and continues with the remaining
statements and the unchanged globals.  Concretely, with `scipy` approved
but unavailable and `math` available, the snippet
`import scipy\nimport math\nx = 7\nprint(x)` still returns
`success = true`, its output starts with the warning, the remainder's
`print` output follows, and the remaining import did bind `math`. -/
theorem importResolutionWarningNonFatal
    (env : Env) (s : ProcState) (cap : Capture) (g : ExecGlobals)
    (stmt : String) (rest : List String) (m : String)
    (h : importStmtBody env g stmt = Except.error ⟨"ImportError", m⟩) :
    importPhase env (stmt :: rest) s cap g =
      importPhase env rest s (writeOut s cap ("Import warning: " ++ m ++ "\n")) g ∧
    (safe_execute_code envScipy s0 "import scipy\nimport math\nx = 7\nprint(x)").2.1 =
      ⟨true, "Import warning: No module named 'scipy'\n7", []⟩ ∧
    (importPhase envScipy ["import scipy", "import math"] (redirected s0)
        freshCapture initGlobals).2.2 =
      Except.ok (setVar initGlobals "math" (PyValue.module "math")) := by
  refine ⟨?_, rfl, rfl⟩
  simp only [importPhase, runImport]
  rw [h]
  simp

/-- C8 (witness). -/
theorem importResolutionWarningNonFatalWitness :
    importPhase envScipy ["import scipy"] (redirected s0) freshCapture initGlobals =
      importPhase envScipy [] (redirected s0)
        (writeOut (redirected s0) freshCapture
          "Import warning: No module named 'scipy'\n")
        initGlobals :=
  (importResolutionWarningNonFatal envScipy (redirected s0) freshCapture
    initGlobals "import scipy" [] "No module named 'scipy'" rfl).1

/-- C9 (counterexample): a successful run that creates figure 5 and then
figure 2 gets its artifacts back as `[2, 5]` — ascending figure-number
order (`plt.get_fignums()` returns a sorted list) — while the creation
order during the run was `[5, 2]`. -/
theorem artifactsNotInCreationOrder :
    (safe_execute_code env0 s0 "plt.figure(5)\nplt.figure(2)").2.1 =
      ⟨true, noOutputMsg, [2, 5]⟩ ∧
    figsAfterBody env0 s0 "plt.figure(5)\nplt.figure(2)" = [5, 2] ∧
    ([2, 5] : List Nat) ≠ [5, 2] :=
  ⟨rfl, rfl, by decide⟩

/-- C9 (amended): on every successful run the artifact list is the
ascending-sorted list of all open figure numbers at the end of the run
(including any figures left open by earlier failed runs); this coincides
with creation order exactly when figure numbers are auto-assigned within
the run on a clean registry. -/
theorem artifactsSortedByFigureNumber (env : Env) (s : ProcState)
    (code : String)
    (hs : (safe_execute_code env s code).2.1.success = true) :
    (safe_execute_code env s code).2.1.figures =
      sortNats (figsAfterBody env s code) := by
  have hout := safe_execute_code_outcome env s code
  rcases hT : tryBody env (redirected s) freshCapture code with ⟨Ts, Tc, Tb⟩
  rw [hT] at hout
  unfold figsAfterBody
  rw [hT]
  cases Tb with
  | error e => rw [hout] at hs; cases hs
  | ok p =>
    have hp := tryBody_ok_payload env (redirected s) freshCapture code Ts Tc p hT
    rw [hout, hp]

/-- C9 (witness). -/
theorem artifactsSortedByFigureNumberWitness :
    (safe_execute_code env0 s0 "plt.figure(2)").2.1.figures =
      sortNats (figsAfterBody env0 s0 "plt.figure(2)") :=
  artifactsSortedByFigureNumber env0 s0 "plt.figure(2)" rfl

/-- C10: the `__builtins__` mapping of the execution namespace holds
exactly the fourteen listed functions; in particular `open`, `__import__`,
`exec` and `eval` are not resolvable during execution of the remainder. -/
theorem restrictedBuiltinsExactlyFourteen :
    initGlobals.builtinNames =
      ["print", "len", "range", "int", "float", "str", "list", "dict", "set",
       "tuple", "sum", "max", "min", "sorted"] ∧
    initGlobals.builtinNames.length = 14 ∧
    resolvable initGlobals "open" = false ∧
    resolvable initGlobals "__import__" = false ∧
    resolvable initGlobals "exec" = false ∧
    resolvable initGlobals "eval" = false := by
  decide
